import Mathlib

/-! WebGL image gallery: layout, scroll controller, animation driver, image shader.

A shallow embedding of `src/script.js`.

* JavaScript numbers (and GLSL floats) are embedded as exact rationals `ℚ`:
  every statement below is about the arithmetic the program writes down, not
  about IEEE rounding, `NaN` or infinities.
* The module-level variables of the script (`sizes.width`, `maxScroll`,
  `minScroll`, `scrollTarget`, `currentScroll`, `lastScroll`, `isScrolling`,
  `scrollTimeout`, `lastWheelTime`, the camera height, the planes of `grid`, the
  uniforms of `materials`, the clear colour) are the fields of `State`; each
  function of the script is a function `State → State`.
* `performance.now()` is an argument `now` of the steps that read it.
* Library calls are embedded by their definition in three.js:
  `THREE.MathUtils.lerp (x, y, t) = (1 - t) * x + t * y` and
  `Color.lerp (c, a)`, which adds `(c - this) * a` to each channel.
-/

namespace Gallery

/-! ## Data model -/

/-- A two-component vector (`THREE.Vector2`, GLSL `vec2`). -/
structure Vec2 where
  x : ℚ
  y : ℚ
  deriving DecidableEq

/-- An RGB colour (`THREE.Color`). -/
structure Color where
  r : ℚ
  g : ℚ
  b : ℚ
  deriving DecidableEq

/-- The uniforms of one `ShaderMaterial` that the script reads or writes after
creation (`createImagePlane`, lines 138-150). -/
structure Material where
  color : Color
  scale : Vec2
  imageBounds : Vec2
  zoom : ℚ
  grayscale : ℚ
  opacity : ℚ
  uBend : ℚ
  deriving DecidableEq

/-- One mesh of `grid.children`: its position and (uniform) scale. -/
structure Plane where
  x : ℚ
  y : ℚ
  scale : ℚ
  deriving DecidableEq

/-- The mutable variables of the script. -/
structure State where
  /-- The value of `sizes.width`. -/
  width : ℚ
  /-- The value of `textures.length`. -/
  textures : ℕ
  /-- The list `grid.children`. -/
  planes : List Plane
  materials : List Material
  maxScroll : ℚ
  minScroll : ℚ
  scrollTarget : ℚ
  currentScroll : ℚ
  lastScroll : ℚ
  isScrolling : Bool
  /-- The pending timer of `scrollTimeout`, as the time at which it is due;
  `none` when no timer is pending. -/
  scrollTimeout : Option ℚ
  lastWheelTime : ℚ
  /-- The value of `camera.position.y`. -/
  cameraY : ℚ
  color1 : Color
  color2 : Color
  /-- The colour last passed to `renderer.setClearColor`. -/
  clearColor : Color

/-! ## Library functions -/

/-- `THREE.MathUtils.lerp`. -/
def lerp (x y t : ℚ) : ℚ := (1 - t) * x + t * y

/-- `Math.sign` on finite numbers. -/
def sign (x : ℚ) : ℚ := if 0 < x then 1 else if x < 0 then -1 else 0

/-- `THREE.Color.lerp`: `this.r += (color.r - this.r) * alpha`, and likewise for
`g` and `b`. -/
def Color.lerp (c d : Color) (alpha : ℚ) : Color :=
  { r := c.r + (d.r - c.r) * alpha
    g := c.g + (d.g - c.g) * alpha
    b := c.b + (d.b - c.b) * alpha }

/-! ## Grid layout (`updateGridLayout`, lines 181-219) -/

def BASE_WIDTH : ℚ := 300
def MAX_COLS : ℤ := 2
def MIN_COLS : ℤ := 1
def MARGIN : ℚ := 1
def BASE_SPACING : ℚ := 5
def SCALE_FACTOR : ℚ := 3 / 2

/-- Line 191: `Math.max(MIN_COLS, Math.min(MAX_COLS, Math.floor(width / BASE_WIDTH)))`. -/
def cols (width : ℚ) : ℤ := max MIN_COLS (min MAX_COLS ⌊width / BASE_WIDTH⌋)

/-- Line 192: `Math.ceil(textures.length / cols)`. -/
def rows (width : ℚ) (n : ℕ) : ℤ := ⌈(n : ℚ) / (cols width : ℚ)⌉

/-- Line 195: `(cols === 2) ? SCALE_FACTOR : 1`. -/
def scale (width : ℚ) : ℚ := if cols width = 2 then SCALE_FACTOR else 1

/-- Line 198: `BASE_SPACING * scale + MARGIN`. -/
def spacing (width : ℚ) : ℚ := BASE_SPACING * scale width + MARGIN

/-- Line 206, as a function of the column: `col * spacing - (cols - 1) * spacing / 2`. -/
def columnX (width : ℚ) (col : ℤ) : ℚ :=
  (col : ℚ) * spacing width - ((cols width : ℚ) - 1) * spacing width / 2

/-- Line 207, as a function of the row: `-row * spacing + (rows - 1) * spacing / 2`. -/
def rowY (width : ℚ) (n : ℕ) (row : ℤ) : ℚ :=
  -(row : ℚ) * spacing width + ((rows width n : ℚ) - 1) * spacing width / 2

/-- Line 202: `index % cols`. -/
def colOf (width : ℚ) (index : ℕ) : ℤ := (index : ℤ) % cols width

/-- Line 203: `Math.floor(index / cols)`. -/
def rowOf (width : ℚ) (index : ℕ) : ℤ := ⌊(index : ℚ) / (cols width : ℚ)⌋

/-- Lines 201-211: the position and scale written to the plane at `index`. -/
def place (width : ℚ) (n : ℕ) (index : ℕ) : Plane :=
  { x := columnX width (colOf width index)
    y := rowY width n (rowOf width index)
    scale := scale width }

/-- Line 214: `(rows - 1) * spacing`. -/
def gridHeight (width : ℚ) (n : ℕ) : ℚ := ((rows width n : ℚ) - 1) * spacing width

def updateGridLayout (s : State) : State :=
  { s with
    planes := s.planes.mapIdx (fun index _ => place s.width s.textures index)
    maxScroll := gridHeight s.width s.textures / 2
    minScroll := -(gridHeight s.width s.textures / 2) }

/-! ## Scroll controller (`onScroll`, lines 247-261) -/

def onScroll (s : State) (deltaY now : ℚ) : State :=
  { s with
    scrollTarget := max s.minScroll (min s.maxScroll (s.scrollTarget + deltaY * (3 / 100)))
    isScrolling := true
    lastWheelTime := now
    scrollTimeout := some (now + 200) }

/-- The callback armed at line 258, run by the host at time `now`: it runs only
when a timer is pending and due. -/
def scrollTimeoutFires (s : State) (now : ℚ) : State :=
  match s.scrollTimeout with
  | some due => if due ≤ now then { s with isScrolling := false, scrollTimeout := none } else s
  | none => s

/-- The resize listener (lines 38-53): `sizes.width` is updated and the layout
recomputed. The camera aspect and the renderer size are outside the model. -/
def onResize (s : State) (width : ℚ) : State :=
  updateGridLayout { s with width := width }

/-! ## Animation driver (`tick`, lines 298-342) -/

/-- Lines 304-306: the value of `isScrolling` after the idle check. -/
def stillScrolling (s : State) (now : ℚ) : Bool :=
  if now - s.lastWheelTime > 200 then false else s.isScrolling

/-- Line 309: `currentScroll += (scrollTarget - currentScroll) * 0.1`. -/
def smoothed (s : State) : ℚ :=
  s.currentScroll + (s.scrollTarget - s.currentScroll) * (1 / 10)

/-- Line 313: `Math.sign(currentScroll - lastScroll)`, with the `currentScroll`
of line 309. -/
def scrollDirection (s : State) : ℚ := sign (smoothed s - s.lastScroll)

/-- Lines 318-326: the uniforms written to one material. -/
def easeMaterial (isScrolling : Bool) (scrollDirection : ℚ) (m : Material) : Material :=
  if isScrolling then
    { m with
      uBend := lerp m.uBend (scrollDirection * (1 / 2)) (1 / 10)
      zoom := lerp m.zoom (9 / 5) (1 / 10)
      grayscale := lerp m.grayscale (6 / 5) (1 / 10) }
  else
    { m with
      uBend := lerp m.uBend 0 (1 / 10)
      zoom := lerp m.zoom 1 (1 / 10)
      grayscale := lerp m.grayscale 0 (1 / 10) }

/-- Line 330: `(camera.position.y + 8) / 16`. -/
def backgroundT (cameraY : ℚ) : ℚ := (cameraY + 8) / 16

def tick (s : State) (now : ℚ) : State :=
  { s with
    isScrolling := stillScrolling s now
    currentScroll := smoothed s
    cameraY := -smoothed s
    lastScroll := smoothed s
    materials := s.materials.map (easeMaterial (stillScrolling s now) (scrollDirection s))
    clearColor := s.color1.lerp s.color2 (backgroundT (-smoothed s)) }

/-! ## Image plane shader, fragment stage (lines 100-137) -/

/-- A four-component vector (GLSL `vec4`): a colour with alpha. -/
structure Vec4 where
  r : ℚ
  g : ℚ
  b : ℚ
  a : ℚ
  deriving DecidableEq

namespace FragmentShader

/-- Lines 119-121: `size / min(size.x, size.y)`. -/
def aspect (size : Vec2) : Vec2 :=
  { x := size.x / min size.x size.y, y := size.y / min size.x size.y }

/-- Lines 124-130: the cover-fit coordinate `uv` of `main`. -/
def coverUv (scale imageBounds vUv : Vec2) : Vec2 :=
  let s := aspect scale
  let i := aspect imageBounds
  let rs := s.x / s.y
  let ri := i.x / i.y
  let newSize : Vec2 :=
    if rs < ri then { x := i.x * s.y / i.y, y := s.y } else { x := s.x, y := i.y * s.x / i.x }
  let offset : Vec2 :=
    if rs < ri then { x := (newSize.x - s.x) / 2 / newSize.x, y := 0 / newSize.y }
    else { x := 0 / newSize.x, y := (newSize.y - s.y) / 2 / newSize.y }
  { x := vUv.x * s.x / newSize.x + offset.x, y := vUv.y * s.y / newSize.y + offset.y }

/-- Line 132: `(uv - vec2(0.5, 0.5)) / zoom + vec2(0.5, 0.5)`, the coordinate at
which the texture is sampled. -/
def zUv (m : Material) (vUv : Vec2) : Vec2 :=
  let uv := coverUv m.scale m.imageBounds vUv
  { x := (uv.x - 1 / 2) / m.zoom + 1 / 2, y := (uv.y - 1 / 2) / m.zoom + 1 / 2 }

/-- Lines 113-117: `mix(color.rgb, vec3(dot(color.rgb, luma)), intensity)`, alpha kept. -/
def toGrayscale (color : Vec4) (intensity : ℚ) : Vec4 :=
  let l := color.r * (299 / 1000) + color.g * (587 / 1000) + color.b * (114 / 1000)
  { r := color.r * (1 - intensity) + l * intensity
    g := color.g * (1 - intensity) + l * intensity
    b := color.b * (1 - intensity) + l * intensity
    a := color.a }

/-- Lines 123-136: the fragment colour, for the texture `map` given as a function
of the sampled coordinate. -/
def main (m : Material) (map : Vec2 → Vec4) (vUv : Vec2) : Vec4 :=
  let t := map (zUv m vUv)
  toGrayscale
    { r := t.r * m.color.r, g := t.g * m.color.g, b := t.b * m.color.b, a := t.a * m.opacity }
    m.grayscale

end FragmentShader

/-! ## The session: start state and events -/

/-- Line 9. -/
def imageFilenames : List String :=
  ["1.jpg", "2.jpg", "3.jpg", "4.jpg", "5.jpg", "6.jpg", "7.jpg", "8.jpg", "9.jpg", "10.jpg"]

/-- The uniforms given to a new material (lines 138-150). -/
def newMaterial : Material :=
  { color := { r := 1, g := 1, b := 1 }
    scale := { x := 1, y := 1 }
    imageBounds := { x := 3840, y := 2400 }
    zoom := 1
    grayscale := 0
    opacity := 1
    uBend := 0 }

/-- The state once the script has run down to line 296, before the first `tick`:
`n` textures, one plane and one material per texture, the layout computed once
(line 221), the scroll variables of lines 240-245, the camera at height 0, the
clear colour `0x6e76ff`. The window width and the two random colours are
arguments. -/
def start (width : ℚ) (n : ℕ) (color1 color2 : Color) : State :=
  updateGridLayout
    { width := width
      textures := n
      planes := List.replicate n { x := 0, y := 0, scale := 1 }
      materials := List.replicate n newMaterial
      maxScroll := 0
      minScroll := 0
      scrollTarget := 0
      currentScroll := 0
      lastScroll := 0
      isScrolling := false
      scrollTimeout := none
      lastWheelTime := 0
      cameraY := 0
      color1 := color1
      color2 := color2
      clearColor := { r := 110 / 255, g := 118 / 255, b := 1 } }

/-- What the host can do to a running session. -/
inductive Event where
  /-- A wheel or touch-move event: `onScroll(deltaY)` at time `now`. -/
  | scroll (deltaY now : ℚ)
  /-- An animation frame: `tick()` at time `now`. -/
  | frame (now : ℚ)
  /-- The host runs due timers at time `now`. -/
  | timer (now : ℚ)
  /-- A resize event with the new `window.innerWidth`. -/
  | resize (width : ℚ)
  deriving DecidableEq

def step (s : State) : Event → State
  | .scroll deltaY now => onScroll s deltaY now
  | .frame now => tick s now
  | .timer now => scrollTimeoutFires s now
  | .resize width => onResize s width

def run (s : State) (events : List Event) : State := events.foldl step s

/-- An event other than an `onScroll` call. -/
def Event.noInput : Event → Prop
  | .scroll _ _ => False
  | _ => True

/-- The number of `tick` calls among the events. -/
def frames : List Event → ℕ
  | [] => 0
  | .frame _ :: es => frames es + 1
  | _ :: es => frames es


/-! ## Invariants of a session -/

/-- The scroll limits are those of the layout for the current width and item count. -/
def BoundsCurrent (s : State) : Prop :=
  s.maxScroll = gridHeight s.width s.textures / 2
  ∧ s.minScroll = -(gridHeight s.width s.textures / 2)

/-- The fixed uniforms keep their values and `zoom` stays in `[1, 1.8]`. -/
def MaterialOk (m : Material) : Prop :=
  m.scale = { x := 1, y := 1 } ∧ m.imageBounds = { x := 3840, y := 2400 }
  ∧ 1 ≤ m.zoom ∧ m.zoom ≤ 9 / 5

/-! ## Easing toward the rest tuple, in closed form -/

/-- A colour pair as `getRandomHSLColor` may return it (saturation and lightness 0.5). -/
def hue1 : Color := { r := 3 / 4, g := 1 / 4, b := 1 / 4 }

def hue2 : Color := { r := 1 / 4, g := 1 / 4, b := 3 / 4 }

/-- Ten images in a window 1000 wide: two columns. -/
def wide : State := start 1000 imageFilenames.length hue1 hue2

/-- Ten images in a window 250 wide: one column. -/
def narrow : State := start 250 imageFilenames.length hue1 hue2

/-- The two-column session scrolled to the end of its range: `scrollTarget = 17`. -/
def wideAtEnd : State := onScroll wide 600 0

/-- Six animation frames. -/
def sixFrames : List Event := List.replicate 6 (.frame 16)

/-- The two-column session after a wheel event of 600 and six frames. -/
def wideScrolled : State := run wideAtEnd sixFrames

/-- A wheel event, then a frame while the session is still scrolling. -/
def scrollThenFrame : List Event := [.scroll 100 0, .frame 16]

/-- The uniforms of each material once `scrollThenFrame` has run: one easing step
toward the scrolling targets. -/
def easedOnce : Material :=
  easeMaterial (stillScrolling (onScroll wide 100 0) 16) (scrollDirection (onScroll wide 100 0))
    newMaterial

/-! ## Layout lemmas -/

theorem cols_of_wide {width : ℚ} (h : 600 ≤ width) : cols width = 2 := by
  have h2 : (2 : ℤ) ≤ ⌊width / BASE_WIDTH⌋ := by
    rw [Int.le_floor]
    unfold BASE_WIDTH
    rw [le_div_iff₀ (by norm_num)]
    push_cast
    linarith
  unfold cols MIN_COLS MAX_COLS
  rw [min_eq_left h2]
  rfl

theorem cols_of_narrow {width : ℚ} (h : width < 600) : cols width = 1 := by
  have h2 : ⌊width / BASE_WIDTH⌋ ≤ 1 := by
    have : ⌊width / BASE_WIDTH⌋ < 2 := by
      rw [Int.floor_lt]
      unfold BASE_WIDTH
      rw [div_lt_iff₀ (by norm_num)]
      push_cast
      linarith
    omega
  unfold cols MIN_COLS MAX_COLS
  rw [min_eq_right (by omega), max_eq_left h2]

theorem cols_cases (width : ℚ) : cols width = 1 ∨ cols width = 2 := by
  rcases lt_or_le width 600 with h | h
  · exact Or.inl (cols_of_narrow h)
  · exact Or.inr (cols_of_wide h)

theorem spacing_pos (width : ℚ) : 0 < spacing width := by
  unfold spacing scale BASE_SPACING SCALE_FACTOR MARGIN
  split <;> norm_num

theorem rows_pos (width : ℚ) {n : ℕ} (hn : 1 ≤ n) : 1 ≤ rows width n := by
  have hc : (0 : ℚ) < (cols width : ℚ) := by
    rcases cols_cases width with h | h <;> rw [h] <;> norm_num
  have hn' : (0 : ℚ) < (n : ℚ) := by exact_mod_cast hn
  have : 0 < rows width n := by
    unfold rows
    rw [Int.ceil_pos]
    exact div_pos hn' hc
  omega

theorem maxScroll_nonneg (s : State) (hn : 1 ≤ s.textures) :
    0 ≤ (updateGridLayout s).maxScroll := by
  have hr : (1 : ℚ) ≤ (rows s.width s.textures : ℚ) := by exact_mod_cast rows_pos s.width hn
  have hs := spacing_pos s.width
  show 0 ≤ gridHeight s.width s.textures / 2
  unfold gridHeight
  have : 0 ≤ ((rows s.width s.textures : ℚ) - 1) * spacing s.width :=
    mul_nonneg (by linarith) hs.le
  linarith

theorem cols_1000 : cols 1000 = 2 := cols_of_wide (by norm_num)

theorem cols_250 : cols 250 = 1 := cols_of_narrow (by norm_num)

theorem rows_1000 : rows 1000 10 = 5 := by
  unfold rows; rw [cols_1000]; norm_num

theorem rows_250 : rows 250 10 = 10 := by
  unfold rows; rw [cols_250]; norm_num

theorem scale_1000 : scale 1000 = 3 / 2 := by simp [scale, cols_1000, SCALE_FACTOR]

theorem scale_250 : scale 250 = 1 := by simp [scale, cols_250]

theorem spacing_1000 : spacing 1000 = 17 / 2 := by
  unfold spacing; rw [scale_1000]; norm_num [BASE_SPACING, MARGIN]

theorem spacing_250 : spacing 250 = 6 := by
  unfold spacing; rw [scale_250]; norm_num [BASE_SPACING, MARGIN]

theorem gridHeight_1000 : gridHeight 1000 10 = 34 := by
  unfold gridHeight; rw [rows_1000, spacing_1000]; norm_num

theorem gridHeight_250 : gridHeight 250 10 = 54 := by
  unfold gridHeight; rw [rows_250, spacing_250]; norm_num

theorem wide_bounds : wide.maxScroll = 17 ∧ wide.minScroll = -17 := by
  constructor
  · show gridHeight 1000 10 / 2 = 17
    rw [gridHeight_1000]; norm_num
  · show -(gridHeight 1000 10 / 2) = -17
    rw [gridHeight_1000]; norm_num

theorem narrow_bounds : narrow.maxScroll = 27 ∧ narrow.minScroll = -27 := by
  constructor
  · show gridHeight 250 10 / 2 = 27
    rw [gridHeight_250]; norm_num
  · show -(gridHeight 250 10 / 2) = -27
    rw [gridHeight_250]; norm_num

theorem updateGridLayout_wide :
    (updateGridLayout wide).maxScroll = 17 ∧ (updateGridLayout wide).minScroll = -17 :=
  wide_bounds

theorem updateGridLayout_narrow :
    (updateGridLayout narrow).maxScroll = 27 ∧ (updateGridLayout narrow).minScroll = -27 :=
  narrow_bounds

/-! ## Layout: the claims -/

/-- C6: for every viewport width and every item count `n ≥ 1`, `updateGridLayout`
computes `columns = clamp(floor(w / 300), 1, 2)`, so `1 ≤ columns ≤ 2` with
`columns = 2` exactly when `w ≥ 600`; `rows = ceil(n / columns)`; `scale = 1.5`
when `columns = 2` and `1` otherwise; `spacing = 5 * scale + 1`;
`maxScroll = (rows - 1) * spacing / 2`, `minScroll = -maxScroll` and
`maxScroll ≥ 0`. -/
theorem updateGridLayout_bounds (s : State) (hn : 1 ≤ s.textures) :
    cols s.width = max 1 (min 2 ⌊s.width / 300⌋)
    ∧ 1 ≤ cols s.width ∧ cols s.width ≤ 2
    ∧ (cols s.width = 2 ↔ 600 ≤ s.width)
    ∧ rows s.width s.textures = ⌈(s.textures : ℚ) / (cols s.width : ℚ)⌉
    ∧ scale s.width = (if cols s.width = 2 then 3 / 2 else 1)
    ∧ spacing s.width = 5 * scale s.width + 1
    ∧ (updateGridLayout s).maxScroll
        = ((rows s.width s.textures : ℚ) - 1) * spacing s.width / 2
    ∧ (updateGridLayout s).minScroll = -(updateGridLayout s).maxScroll
    ∧ 0 ≤ (updateGridLayout s).maxScroll := by
  refine ⟨rfl, ?_, ?_, ?_, rfl, rfl, rfl, rfl, rfl, maxScroll_nonneg s hn⟩
  · rcases cols_cases s.width with h | h <;> omega
  · rcases cols_cases s.width with h | h <;> omega
  · constructor
    · intro h
      by_contra hlt
      have := cols_of_narrow (not_le.mp hlt)
      omega
    · exact cols_of_wide

/-- Scenarios A and B: ten items at width 1000 give columns 2, scale 1.5, spacing
8.5, rows 5, maxScroll 17, minScroll -17; at width 250 they give columns 1,
scale 1, spacing 6, rows 10, maxScroll 27. -/
theorem updateGridLayout_bounds_witness :
    (1 ≤ wide.textures
      ∧ (cols wide.width = max 1 (min 2 ⌊wide.width / 300⌋)
        ∧ 1 ≤ cols wide.width ∧ cols wide.width ≤ 2
        ∧ (cols wide.width = 2 ↔ 600 ≤ wide.width)
        ∧ rows wide.width wide.textures = ⌈(wide.textures : ℚ) / (cols wide.width : ℚ)⌉
        ∧ scale wide.width = (if cols wide.width = 2 then 3 / 2 else 1)
        ∧ spacing wide.width = 5 * scale wide.width + 1
        ∧ (updateGridLayout wide).maxScroll
            = ((rows wide.width wide.textures : ℚ) - 1) * spacing wide.width / 2
        ∧ (updateGridLayout wide).minScroll = -(updateGridLayout wide).maxScroll
        ∧ 0 ≤ (updateGridLayout wide).maxScroll))
    ∧ (cols 1000 = 2 ∧ scale 1000 = 3 / 2 ∧ spacing 1000 = 17 / 2 ∧ rows 1000 10 = 5
        ∧ (updateGridLayout wide).maxScroll = 17 ∧ (updateGridLayout wide).minScroll = -17)
    ∧ (cols 250 = 1 ∧ scale 250 = 1 ∧ spacing 250 = 6 ∧ rows 250 10 = 10
        ∧ (updateGridLayout narrow).maxScroll = 27) := by
  exact ⟨⟨by decide, updateGridLayout_bounds wide (by decide)⟩,
    ⟨cols_1000, scale_1000, spacing_1000, rows_1000, updateGridLayout_wide.1,
      updateGridLayout_wide.2⟩,
    ⟨cols_250, scale_250, spacing_250, rows_250, updateGridLayout_narrow.1⟩⟩

theorem boundsCurrent_updateGridLayout (s : State) : BoundsCurrent (updateGridLayout s) :=
  ⟨rfl, rfl⟩

theorem scrollTimeoutFires_cases (s : State) (now : ℚ) :
    scrollTimeoutFires s now = s
    ∨ scrollTimeoutFires s now = { s with isScrolling := false, scrollTimeout := none } := by
  unfold scrollTimeoutFires
  split
  · split
    · exact Or.inr rfl
    · exact Or.inl rfl
  · exact Or.inl rfl

theorem step_textures (s : State) (e : Event) : (step s e).textures = s.textures := by
  cases e with
  | scroll deltaY now => rfl
  | frame now => rfl
  | timer now => rcases scrollTimeoutFires_cases s now with h | h <;> simp [step, h]
  | resize width => rfl

theorem step_boundsCurrent (s : State) (e : Event) (h : BoundsCurrent s) :
    BoundsCurrent (step s e) := by
  cases e with
  | scroll deltaY now => exact h
  | frame now => exact h
  | timer now =>
    rcases scrollTimeoutFires_cases s now with h1 | h1
    · simpa [step, h1] using h
    · simp only [step, h1]; exact h
  | resize width => exact boundsCurrent_updateGridLayout _

theorem run_textures (s : State) (events : List Event) : (run s events).textures = s.textures := by
  induction events generalizing s with
  | nil => rfl
  | cons e es ih =>
    show (run (step s e) es).textures = s.textures
    rw [ih, step_textures]

theorem run_boundsCurrent (s : State) (events : List Event) (h : BoundsCurrent s) :
    BoundsCurrent (run s events) := by
  induction events generalizing s with
  | nil => exact h
  | cons e es ih => exact ih (step s e) (step_boundsCurrent s e h)

theorem boundsCurrent_le (s : State) (h : BoundsCurrent s) (hn : 1 ≤ s.textures) :
    s.minScroll ≤ s.maxScroll := by
  have h0 := maxScroll_nonneg s hn
  have e : (updateGridLayout s).maxScroll = gridHeight s.width s.textures / 2 := rfl
  rw [h.1, h.2]
  rw [e] at h0
  linarith

/-! ## Scroll controller: the claims -/

/-- C1: take any state with at least one item, compute the layout with
`updateGridLayout`, and let any events follow. Every `onScroll(deltaY)` call made
then leaves `scrollTarget = clamp(scrollTarget_before + 0.03 * deltaY, minScroll,
maxScroll)`, so `minScroll ≤ scrollTarget ≤ maxScroll` right after the call, and
`isScrolling` is true. -/
theorem onScroll_clamps (s : State) (hn : 1 ≤ s.textures) (events : List Event)
    (deltaY now : ℚ) :
    (onScroll (run (updateGridLayout s) events) deltaY now).scrollTarget
      = max (run (updateGridLayout s) events).minScroll
          (min (run (updateGridLayout s) events).maxScroll
            ((run (updateGridLayout s) events).scrollTarget + 3 / 100 * deltaY))
    ∧ (onScroll (run (updateGridLayout s) events) deltaY now).minScroll
        ≤ (onScroll (run (updateGridLayout s) events) deltaY now).scrollTarget
    ∧ (onScroll (run (updateGridLayout s) events) deltaY now).scrollTarget
        ≤ (onScroll (run (updateGridLayout s) events) deltaY now).maxScroll
    ∧ (onScroll (run (updateGridLayout s) events) deltaY now).isScrolling = true := by
  have hb := run_boundsCurrent _ events (boundsCurrent_updateGridLayout s)
  have ht : 1 ≤ (run (updateGridLayout s) events).textures := by
    rw [run_textures]; exact hn
  have hle := boundsCurrent_le _ hb ht
  refine ⟨?_, ?_, ?_, rfl⟩
  · show max _ (min _ (_ + deltaY * (3 / 100))) = _
    rw [mul_comm deltaY]
  · exact le_max_left _ _
  · exact max_le hle (min_le_left _ _)

/-- Scenario C: with bounds `[-17, 17]` and `scrollTarget = 0`, `onScroll(-500)`
gives `scrollTarget = -15` and `isScrolling = true`. -/
theorem onScroll_clamps_witness :
    (1 ≤ wide.textures
      ∧ ((onScroll (run (updateGridLayout wide) []) (-500) 0).scrollTarget
          = max (run (updateGridLayout wide) []).minScroll
              (min (run (updateGridLayout wide) []).maxScroll
                ((run (updateGridLayout wide) []).scrollTarget + 3 / 100 * (-500)))
        ∧ (onScroll (run (updateGridLayout wide) []) (-500) 0).minScroll
            ≤ (onScroll (run (updateGridLayout wide) []) (-500) 0).scrollTarget
        ∧ (onScroll (run (updateGridLayout wide) []) (-500) 0).scrollTarget
            ≤ (onScroll (run (updateGridLayout wide) []) (-500) 0).maxScroll
        ∧ (onScroll (run (updateGridLayout wide) []) (-500) 0).isScrolling = true))
    ∧ (updateGridLayout wide).scrollTarget = 0
    ∧ (updateGridLayout wide).minScroll = -17
    ∧ (updateGridLayout wide).maxScroll = 17
    ∧ (onScroll (updateGridLayout wide) (-500) 0).scrollTarget = -15 := by
  refine ⟨⟨by decide, onScroll_clamps wide (by decide) [] (-500) 0⟩, rfl,
    updateGridLayout_wide.2, updateGridLayout_wide.1, ?_⟩
  show max (updateGridLayout wide).minScroll
    (min (updateGridLayout wide).maxScroll (0 + -500 * (3 / 100))) = -15
  rw [updateGridLayout_wide.1, updateGridLayout_wide.2]
  norm_num

theorem tick_gap (s : State) (now : ℚ) :
    s.scrollTarget - (tick s now).currentScroll = 9 / 10 * (s.scrollTarget - s.currentScroll) := by
  show s.scrollTarget - smoothed s = _
  unfold smoothed
  ring

theorem step_noInput_gap (s : State) (e : Event) (h : e.noInput) :
    (step s e).scrollTarget = s.scrollTarget
    ∧ s.scrollTarget - (step s e).currentScroll
        = (9 / 10) ^ frames [e] * (s.scrollTarget - s.currentScroll) := by
  cases e with
  | scroll deltaY now => exact absurd h id
  | frame now =>
    refine ⟨rfl, ?_⟩
    rw [show frames [Event.frame now] = 1 from rfl, pow_one]
    exact tick_gap s now
  | timer now =>
    rcases scrollTimeoutFires_cases s now with h1 | h1 <;>
      simp [step, h1, frames]
  | resize width =>
    refine ⟨rfl, ?_⟩
    simp [step, onResize, updateGridLayout, frames]

theorem frames_cons (e : Event) (es : List Event) : frames (e :: es) = frames [e] + frames es := by
  cases e <;> simp [frames, Nat.add_comm]

theorem run_noInput_gap (s : State) (events : List Event) (h : ∀ e ∈ events, e.noInput) :
    (run s events).scrollTarget = s.scrollTarget
    ∧ s.scrollTarget - (run s events).currentScroll
        = (9 / 10) ^ frames events * (s.scrollTarget - s.currentScroll) := by
  induction events generalizing s with
  | nil => simp [run, frames]
  | cons e es ih =>
    have he := step_noInput_gap s e (h e (List.mem_cons_self e es))
    have hes := ih (step s e) (fun x hx => h x (List.mem_cons_of_mem e hx))
    show (run (step s e) es).scrollTarget = s.scrollTarget
      ∧ s.scrollTarget - (run (step s e) es).currentScroll = _
    rw [he.1] at hes
    refine ⟨hes.1, ?_⟩
    rw [frames_cons e es, pow_add, hes.2, he.2]
    ring

theorem sixFrames_noInput : ∀ e ∈ sixFrames, e.noInput := by
  intro e he
  rw [List.eq_of_mem_replicate he]
  trivial

theorem wideAtEnd_scrollTarget : wideAtEnd.scrollTarget = 17 := by
  show max wide.minScroll (min wide.maxScroll (0 + 600 * (3 / 100))) = 17
  rw [wide_bounds.1, wide_bounds.2]
  norm_num

theorem wideScrolled_currentScroll :
    (tick wideScrolled 16).currentScroll = 17 - (9 / 10) ^ 7 * 17 := by
  have h6 := (run_noInput_gap wideAtEnd sixFrames sixFrames_noInput)
  have h7 := tick_gap wideScrolled 16
  have ht : wideScrolled.scrollTarget = 17 := by
    show (run wideAtEnd sixFrames).scrollTarget = 17
    rw [h6.1, wideAtEnd_scrollTarget]
  have hc : (17 : ℚ) - wideScrolled.currentScroll = (9 / 10) ^ 6 * 17 := by
    have := h6.2
    rw [wideAtEnd_scrollTarget, show frames sixFrames = 6 from rfl,
      show wideAtEnd.currentScroll = 0 from rfl] at this
    rw [show wideScrolled = run wideAtEnd sixFrames from rfl, this]
    ring
  rw [ht, hc] at h7
  linarith

/-- C3, as the code has it: the parameter with which `tick` interpolates the
background colour from `color1` to `color2` is `t = (cameraY + 8) / 16`, with no
clamp, where `cameraY = -currentScroll` is the camera height the tick has just
set; `0 ≤ t ≤ 1` holds exactly when `-8 ≤ cameraY ≤ 8`. -/
theorem tick_background (s : State) (now : ℚ) :
    (tick s now).cameraY = -(tick s now).currentScroll
    ∧ (tick s now).clearColor
        = s.color1.lerp s.color2 (backgroundT (tick s now).cameraY)
    ∧ backgroundT (tick s now).cameraY = ((tick s now).cameraY + 8) / 16
    ∧ ((0 ≤ backgroundT (tick s now).cameraY ∧ backgroundT (tick s now).cameraY ≤ 1)
        ↔ (-8 ≤ (tick s now).cameraY ∧ (tick s now).cameraY ≤ 8)) := by
  refine ⟨rfl, rfl, rfl, ?_⟩
  unfold backgroundT
  rw [le_div_iff₀ (by norm_num), div_le_iff₀ (by norm_num)]
  constructor
  · rintro ⟨h1, h2⟩
    constructor <;> linarith
  · rintro ⟨h1, h2⟩
    constructor <;> linarith

/-- C3 fails as stated: in the two-column session, after a wheel event of 600 and
seven ticks the camera is at `-88689527/10000000`, below `-8`, and the tick
interpolates the background colour with `t = -8689527/160000000 < 0`. -/
theorem background_not_clamped :
    (tick wideScrolled 16).cameraY = -(88689527 / 10000000)
    ∧ (tick wideScrolled 16).clearColor
        = wideScrolled.color1.lerp wideScrolled.color2 (-(8689527 / 160000000))
    ∧ backgroundT (tick wideScrolled 16).cameraY = -(8689527 / 160000000)
    ∧ ¬ (0 ≤ backgroundT (tick wideScrolled 16).cameraY
        ∧ backgroundT (tick wideScrolled 16).cameraY ≤ 1) := by
  have hy : (tick wideScrolled 16).cameraY = -(88689527 / 10000000) := by
    show -(tick wideScrolled 16).currentScroll = _
    rw [wideScrolled_currentScroll]
    norm_num
  have ht : backgroundT (tick wideScrolled 16).cameraY = -(8689527 / 160000000) := by
    rw [hy]
    unfold backgroundT
    norm_num
  refine ⟨hy, ?_, ht, ?_⟩
  · show wideScrolled.color1.lerp wideScrolled.color2
      (backgroundT (tick wideScrolled 16).cameraY) = _
    rw [ht]
  · rw [ht]
    norm_num

/-! ## Animation driver: the idle check and the rest tuple -/

theorem materialOk_newMaterial : MaterialOk newMaterial := by
  refine ⟨rfl, rfl, ?_, ?_⟩ <;> norm_num [newMaterial]

theorem materialOk_easeMaterial (b : Bool) (d : ℚ) (m : Material) (h : MaterialOk m) :
    MaterialOk (easeMaterial b d m) := by
  obtain ⟨h1, h2, h3, h4⟩ := h
  cases b
  · refine ⟨h1, h2, ?_, ?_⟩
    · show 1 ≤ lerp m.zoom 1 (1 / 10)
      unfold lerp
      linarith
    · show lerp m.zoom 1 (1 / 10) ≤ 9 / 5
      unfold lerp
      linarith
  · refine ⟨h1, h2, ?_, ?_⟩
    · show 1 ≤ lerp m.zoom (9 / 5) (1 / 10)
      unfold lerp
      linarith
    · show lerp m.zoom (9 / 5) (1 / 10) ≤ 9 / 5
      unfold lerp
      linarith

theorem step_materialOk (s : State) (e : Event) (h : ∀ m ∈ s.materials, MaterialOk m) :
    ∀ m ∈ (step s e).materials, MaterialOk m := by
  cases e with
  | scroll deltaY now => exact h
  | frame now =>
    intro m hm
    obtain ⟨m0, hm0, rfl⟩ := List.mem_map.mp hm
    exact materialOk_easeMaterial _ _ m0 (h m0 hm0)
  | timer now =>
    have e1 : step s (.timer now) = scrollTimeoutFires s now := rfl
    rcases scrollTimeoutFires_cases s now with h1 | h1 <;> rw [e1, h1] <;> exact h
  | resize width => exact h

theorem run_materialOk (s : State) (events : List Event)
    (h : ∀ m ∈ s.materials, MaterialOk m) : ∀ m ∈ (run s events).materials, MaterialOk m := by
  induction events generalizing s with
  | nil => exact h
  | cons e es ih => exact ih (step s e) (step_materialOk s e h)

theorem start_materialOk (width : ℚ) (n : ℕ) (color1 color2 : Color) :
    ∀ m ∈ (start width n color1 color2).materials, MaterialOk m := by
  intro m hm
  have hm' : m ∈ List.replicate n newMaterial := hm
  rw [List.eq_of_mem_replicate hm']
  exact materialOk_newMaterial

theorem coverUv_reference (vUv : Vec2) :
    FragmentShader.coverUv { x := 1, y := 1 } { x := 3840, y := 2400 } vUv
      = { x := vUv.x * 5 / 8 + 3 / 16, y := vUv.y } := by
  have hmin : min (3840 : ℚ) 2400 = 2400 := min_eq_right (by norm_num)
  simp only [FragmentShader.coverUv, FragmentShader.aspect, min_self, hmin]
  norm_num
  ring

theorem zUv_unit_square (m : Material) (hm : MaterialOk m) (vUv : Vec2)
    (hx : 0 ≤ vUv.x ∧ vUv.x ≤ 1) (hy : 0 ≤ vUv.y ∧ vUv.y ≤ 1) :
    0 ≤ (FragmentShader.zUv m vUv).x ∧ (FragmentShader.zUv m vUv).x ≤ 1
    ∧ 0 ≤ (FragmentShader.zUv m vUv).y ∧ (FragmentShader.zUv m vUv).y ≤ 1 := by
  obtain ⟨h1, h2, h3, h4⟩ := hm
  have hz : (0 : ℚ) < m.zoom := by linarith
  have key : ∀ a : ℚ, -(1 / 2) ≤ a → a ≤ 1 / 2 →
      0 ≤ a / m.zoom + 1 / 2 ∧ a / m.zoom + 1 / 2 ≤ 1 := by
    intro a ha1 ha2
    have hlo : -(1 / 2) ≤ a / m.zoom := by
      rw [le_div_iff₀ hz]
      nlinarith
    have hhi : a / m.zoom ≤ 1 / 2 := by
      rw [div_le_iff₀ hz]
      nlinarith
    constructor <;> linarith
  unfold FragmentShader.zUv
  rw [h1, h2, coverUv_reference]
  have kx := key (vUv.x * 5 / 8 + 3 / 16 - 1 / 2) (by linarith [hx.1]) (by linarith [hx.2])
  have ky := key (vUv.y - 1 / 2) (by linarith [hy.1]) (by linarith [hy.2])
  exact ⟨kx.1, kx.2, ky.1, ky.2⟩

theorem zUv_centre (m : Material) (hm : MaterialOk m) :
    FragmentShader.zUv m { x := 1 / 2, y := 1 / 2 } = { x := 1 / 2, y := 1 / 2 } := by
  obtain ⟨h1, h2, h3, h4⟩ := hm
  unfold FragmentShader.zUv
  rw [h1, h2, coverUv_reference]
  norm_num

/-- C9: in every state reached from the start state (every `zoom = 1`) by any
events, every material has `1 ≤ zoom ≤ 1.8`, so `zoom ≠ 0`, and keeps the fixed
uniforms `scale = (1, 1)` and `imageBounds = (3840, 2400)`; for every plane
coordinate `vUv` in `[0,1] × [0,1]` the coordinate `zUv` at which the fragment
stage samples the texture lies in `[0,1] × [0,1]`, and `vUv = (0.5, 0.5)` is
sampled at `zUv = (0.5, 0.5)`. -/
theorem zoom_bounded_zUv_in_range (width : ℚ) (n : ℕ) (color1 color2 : Color)
    (events : List Event) (m : Material)
    (hm : m ∈ (run (start width n color1 color2) events).materials) (vUv : Vec2)
    (hx : 0 ≤ vUv.x ∧ vUv.x ≤ 1) (hy : 0 ≤ vUv.y ∧ vUv.y ≤ 1) :
    (1 ≤ m.zoom ∧ m.zoom ≤ 9 / 5 ∧ m.zoom ≠ 0)
    ∧ (m.scale = { x := 1, y := 1 } ∧ m.imageBounds = { x := 3840, y := 2400 })
    ∧ (0 ≤ (FragmentShader.zUv m vUv).x ∧ (FragmentShader.zUv m vUv).x ≤ 1
        ∧ 0 ≤ (FragmentShader.zUv m vUv).y ∧ (FragmentShader.zUv m vUv).y ≤ 1)
    ∧ FragmentShader.zUv m { x := 1 / 2, y := 1 / 2 } = { x := 1 / 2, y := 1 / 2 } := by
  have hok : MaterialOk m :=
    run_materialOk _ events (start_materialOk width n color1 color2) m hm
  have hz : m.zoom ≠ 0 := by
    have := hok.2.2.1
    intro h0
    rw [h0] at this
    norm_num at this
  exact ⟨⟨hok.2.2.1, hok.2.2.2, hz⟩, ⟨hok.1, hok.2.1⟩, zUv_unit_square m hok vUv hx hy,
    zUv_centre m hok⟩

theorem easedOnce_mem : easedOnce ∈ (run wide scrollThenFrame).materials := by
  show easedOnce ∈ (List.replicate 10 newMaterial).map
    (easeMaterial (stillScrolling (onScroll wide 100 0) 16)
      (scrollDirection (onScroll wide 100 0)))
  exact List.mem_map.mpr ⟨newMaterial, by simp, rfl⟩

theorem easedOnce_zoom : easedOnce.zoom = 27 / 25 := by
  have h : stillScrolling (onScroll wide 100 0) 16 = true := by
    show (if (16 : ℚ) - 0 > 200 then false else true) = true
    norm_num
  unfold easedOnce
  rw [h]
  show lerp 1 (9 / 5) (1 / 10) = 27 / 25
  unfold lerp
  norm_num

theorem corner_in_range :
    (0 ≤ ({ x := 1, y := 0 } : Vec2).x ∧ ({ x := 1, y := 0 } : Vec2).x ≤ 1)
    ∧ (0 ≤ ({ x := 1, y := 0 } : Vec2).y ∧ ({ x := 1, y := 0 } : Vec2).y ≤ 1) := by
  norm_num

/-- After a wheel event and one frame each material has `zoom = 1.08`; the plane
corner `(1, 0)` is sampled inside the image. -/
theorem zoom_bounded_zUv_in_range_witness :
    (easedOnce ∈ (run (start 1000 imageFilenames.length hue1 hue2) scrollThenFrame).materials
      ∧ (0 ≤ ({ x := 1, y := 0 } : Vec2).x ∧ ({ x := 1, y := 0 } : Vec2).x ≤ 1)
      ∧ (0 ≤ ({ x := 1, y := 0 } : Vec2).y ∧ ({ x := 1, y := 0 } : Vec2).y ≤ 1))
    ∧ ((1 ≤ easedOnce.zoom ∧ easedOnce.zoom ≤ 9 / 5 ∧ easedOnce.zoom ≠ 0)
      ∧ (easedOnce.scale = { x := 1, y := 1 }
          ∧ easedOnce.imageBounds = { x := 3840, y := 2400 })
      ∧ (0 ≤ (FragmentShader.zUv easedOnce { x := 1, y := 0 }).x
          ∧ (FragmentShader.zUv easedOnce { x := 1, y := 0 }).x ≤ 1
          ∧ 0 ≤ (FragmentShader.zUv easedOnce { x := 1, y := 0 }).y
          ∧ (FragmentShader.zUv easedOnce { x := 1, y := 0 }).y ≤ 1)
      ∧ FragmentShader.zUv easedOnce { x := 1 / 2, y := 1 / 2 } = { x := 1 / 2, y := 1 / 2 })
    ∧ easedOnce.zoom = 27 / 25 :=
  ⟨⟨easedOnce_mem, corner_in_range.1, corner_in_range.2⟩,
    zoom_bounded_zUv_in_range 1000 imageFilenames.length hue1 hue2 scrollThenFrame easedOnce
      easedOnce_mem { x := 1, y := 0 } corner_in_range.1 corner_in_range.2,
    easedOnce_zoom⟩

/-! ## Scroll direction -/

end Gallery
